import Mathlib

/-!
Verification development for the network device & service auto-discovery
engine of the `robo_app` repository.

The engine lives in two scripts:

* `test_camera_server.py` — the primary pipeline:
  `test_ip_connectivity` / `test_http_connectivity` (probe primitives),
  `ping_sweep` (host sweeper), `check_raspberry_pi` /
  `scan_for_raspberry_pi_devices` (device classifier),
  `check_camera_server` / `scan_raspberry_pi_for_cameras`
  (endpoint resolver), `auto_discover_camera_servers` (orchestrator),
  and the best-candidate selection in `main` (Python `max` by
  `pi_confidence`).

* `diagnose_connectivity.py` — a second, diverging variant:
  `test_port`, `scan_for_raspberry_pi` (hostname match adds a numeric
  `+= 2` confidence bonus and is only consulted after a port probe
  succeeded) and `test_camera_servers` (accepts any HTTP 200 without
  inspecting the content-type).

The network is modelled as an oracle (`Net`): every socket / DNS / HTTP
side effect of the Python code becomes a lookup in the oracle, and the
Python exception behaviour of the socket layer is made explicit through
`SockOutcome` / `connect_ex` (an `Except` models a raised exception).
Thread pools (`ThreadPoolExecutor` + `as_completed`) are embedded as
deterministic traversals in submission order; the spec itself guarantees
no intra-stage ordering, so no claim depends on completion order except
through the per-device grouping, which holds in every schedule because
devices are processed strictly sequentially in the source.
-/

/-- Outcome of a low-level TCP connect attempt, as distinguished by the
CPython socket layer: `connect_ex` reports connection errors as nonzero
error codes, while name-resolution and other socket errors are raised
(modelled by the `Except.error` branch of `connect_ex` below). -/
inductive SockOutcome
  | connected
  | refused
  | timedOut
  | unreachable
  | dnsFailure
  | sockError
deriving DecidableEq, Repr

/-- Model of `socket.connect_ex`: returns `0` on success and an errno for
connection-level failures; raises (here: `Except.error`) for resolution
or socket-creation failures. -/
def connect_ex : SockOutcome → Except String Int
  | .connected   => .ok 0
  | .refused     => .ok 111
  | .timedOut    => .ok 110
  | .unreachable => .ok 113
  | .dnsFailure  => .error "gaierror: Name or service not known"
  | .sockError   => .error "OSError: could not create socket"

/-- The network oracle: one deterministic snapshot of the environment the
scripts probe.  `sock ip port` is what a TCP connect to `(ip, port)` does,
`dns ip` the result of `socket.gethostbyaddr` (`none` = lookup raised),
`http url` the result of `requests.get` (`Except.error` = request raised;
otherwise status code and the optional `content-type` header), `ping ip`
whether the `ping` subprocess exits with code 0, and `localIP` the result
of local-address detection in `get_local_network_ranges` (`none` = the
detection raised). -/
structure Net where
  sock : String → Nat → SockOutcome
  dns : String → Option String
  http : String → Except String (Nat × Option String)
  ping : String → Bool
  localIP : Option String

/-- `leadsWith needle hay`: `needle` is a prefix of `hay` (over characters). -/
def leadsWith : List Char → List Char → Bool
  | [], _ => true
  | _ :: _, [] => false
  | a :: as, b :: bs => a == b && leadsWith as bs

/-- `occursIn needle hay`: `needle` occurs contiguously inside `hay`. -/
def occursIn (needle : List Char) : List Char → Bool
  | [] => needle.isEmpty
  | b :: bs => leadsWith needle (b :: bs) || occursIn needle bs

/-- Python's substring test `needle in hay`. -/
def strContains (hay needle : String) : Bool :=
  occursIn needle.toList hay.toList

/-- Python's `str.lower()`: per-character lowercasing.  (`String.toLower`
itself is iterator-based and does not reduce in the kernel, so the
character-list form is used.) -/
def lowerStr (s : String) : String := ⟨s.data.map Char.toLower⟩

/-- `test_ip_connectivity` (test_camera_server.py:17-27): TCP connect with
`connect_ex`; success iff the returned code is `0`; any raised exception is
caught, printed and turned into `False`. -/
def test_ip_connectivity (net : Net) (ip : String) (port : Nat) : Bool :=
  match connect_ex (net.sock ip port) with
  | .ok r => r == 0
  | .error _ => false

/-- `test_port` (diagnose_connectivity.py:111-120): same probe with a bare
`except` returning `False`. -/
def test_port (net : Net) (ip : String) (port : Nat) : Bool :=
  match connect_ex (net.sock ip port) with
  | .ok r => r == 0
  | .error _ => false

/-- `test_http_connectivity` (test_camera_server.py:29-35): GET the url;
on success return the status code and the `content-type` header with
default `"unknown"`; on a `RequestException` return `(None, str(e))`. -/
def test_http_connectivity (net : Net) (url : String) : Option Nat × String :=
  match net.http url with
  | .ok (status, ct) => (some status, ct.getD "unknown")
  | .error e => (none, e)

/-- A Device Candidate record as built by `check_raspberry_pi`
(test_camera_server.py:172-177): `{'ip', 'indicators', 'confidence'}`. -/
structure PiDevice where
  ip : String
  indicators : List String
  confidence : Nat
deriving DecidableEq, Repr

/-- An Endpoint Candidate record as built by `check_camera_server`
(test_camera_server.py:225-233). -/
structure CameraServer where
  ip : String
  port : Nat
  endpoint : String
  url : String
  status : Nat
  content_type : String
  pi_confidence : Nat
deriving DecidableEq, Repr

/-- The device-name fragments of test_camera_server.py:167 (also
diagnose_connectivity.py:98). -/
def piNames : List String := ["raspberry", "pi", "rpi"]

/-- The hostname indicator of test_camera_server.py:164-170: reverse-DNS
the address; if the (lowercased) name contains a known fragment, record one
`"Hostname: …"` indicator; a lookup failure contributes nothing. -/
def hostnameIndicator (net : Net) (ip : String) : List String :=
  match net.dns ip with
  | some hostname =>
      if piNames.any (fun n => strContains (lowerStr hostname) n) then
        ["Hostname: " ++ hostname]
      else []
  | none => []

/-- The indicator list built by `check_raspberry_pi`
(test_camera_server.py:146-170), in source order: SSH (22), HTTP (80),
Camera (8080), VNC (5900), hostname. -/
def piIndicators (net : Net) (ip : String) : List String :=
  (if test_ip_connectivity net ip 22 then ["SSH"] else []) ++
  (if test_ip_connectivity net ip 80 then ["HTTP"] else []) ++
  (if test_ip_connectivity net ip 8080 then ["Camera"] else []) ++
  (if test_ip_connectivity net ip 5900 then ["VNC"] else []) ++
  hostnameIndicator net ip

/-- `check_raspberry_pi` (test_camera_server.py:143-180): emit a record iff
the indicator list is non-empty; `confidence = len(pi_indicators)`. -/
def check_raspberry_pi (net : Net) (ip : String) : Option PiDevice :=
  let inds := piIndicators net ip
  if inds.isEmpty then none
  else some ⟨ip, inds, inds.length⟩

/-- `scan_for_raspberry_pi_devices` (test_camera_server.py:138-193): one
classification per input address; `None` results are dropped. -/
def scan_for_raspberry_pi_devices (net : Net) (active_hosts : List String) :
    List PiDevice :=
  active_hosts.filterMap (check_raspberry_pi net)

/-- Camera ports of test_camera_server.py:201. -/
def camera_ports : List Nat := [8080, 8081, 8082, 8000, 8001, 5000, 5001, 80, 443]

/-- Camera endpoints of test_camera_server.py:202-213. -/
def camera_endpoints : List String :=
  ["my_mac_camera", "video", "stream", "camera", "mjpeg",
   "feed", "cam", "webcam", "snapshot", "image"]

/-- The accepted media tokens of test_camera_server.py:224. -/
def mediaTypes : List String := ["image", "video", "stream", "mjpeg", "jpeg"]

/-- The URL `f"http://{ip}:{port}/{endpoint}"` of test_camera_server.py:217. -/
def urlOf (ip : String) (port : Nat) (endpoint : String) : String :=
  "http://" ++ ip ++ ":" ++ toString port ++ "/" ++ endpoint

/-- `check_camera_server` (test_camera_server.py:215-236): accept iff the
probe returned a status, the status is exactly 200, and the lowercased
content-type contains one of the media tokens; the record copies the
owning device's confidence into `pi_confidence`. -/
def check_camera_server (net : Net) (pi_device : PiDevice) (port : Nat)
    (endpoint : String) : Option CameraServer :=
  let test_url := urlOf pi_device.ip port endpoint
  match test_http_connectivity net test_url with
  | (some status, content_type) =>
      if status == 200 &&
         mediaTypes.any (fun m => strContains (lowerStr content_type) m) then
        some ⟨pi_device.ip, port, endpoint, test_url, status, content_type,
              pi_device.confidence⟩
      else none
  | (none, _) => none

/-- All endpoints found for one device: the port × endpoint cross-product
in submission order (ports outer, endpoints inner;
test_camera_server.py:242-246). -/
def deviceEndpoints (net : Net) (pi_device : PiDevice) : List CameraServer :=
  camera_ports.flatMap fun port =>
    camera_endpoints.filterMap fun endpoint =>
      check_camera_server net pi_device port endpoint

/-- `scan_raspberry_pi_for_cameras` (test_camera_server.py:195-254):
devices are processed strictly sequentially, each one's endpoint results
appended before the next device is scanned. -/
def scan_raspberry_pi_for_cameras (net : Net) (hosts : List PiDevice) :
    List CameraServer :=
  hosts.flatMap (deviceEndpoints net)

/-- `str(IPv4Network(ip + "/24", strict=False).network_address)`: the first
three octets of `ip` followed by `".0"` (test_camera_server.py:84). -/
def network_address_str (ip : String) : String :=
  String.intercalate "." ((ip.splitOn ".").take 3) ++ ".0"

/-- `get_local_network_ranges` (test_camera_server.py:76-94): on successful
local-IP detection, the `/24` network address with its last *character*
removed (`[:-1]`); on any exception, a fallback list of four common
ranges.  The function never raises. -/
def get_local_network_ranges (localIP : Option String) : List String :=
  match localIP with
  | some local_ip => [(network_address_str local_ip).dropRight 1]
  | none => ["192.168.1", "192.168.0", "10.0.0", "172.16.0"]

/-- `ping_sweep` (test_camera_server.py:96-136): ping
`{base}.{start}..{base}.{end}` and keep the addresses whose ping exits 0
(`range(start_range, end_range + 1)`). -/
def ping_sweep (net : Net) (network_base : String)
    (start_range end_range : Nat) : List String :=
  (List.range' start_range (end_range + 1 - start_range)).filterMap fun i =>
    let ip := network_base ++ "." ++ toString i
    if net.ping ip then some ip else none

/-- The full responder set of one run: every range swept with the default
host range 1–254 (test_camera_server.py:262-268). -/
def allHosts (net : Net) : List String :=
  (get_local_network_ranges net.localIP).flatMap fun base =>
    ping_sweep net base 1 254

/-- `auto_discover_camera_servers` (test_camera_server.py:256-287):
sweep, early-return on an empty responder set, classify, fall back to all
responders with empty indicators and confidence 0 when the classifier
found nothing, then resolve endpoints. -/
def auto_discover_camera_servers (net : Net) : List CameraServer :=
  let hosts := allHosts net
  if hosts.isEmpty then []
  else
    let pis := scan_for_raspberry_pi_devices net hosts
    let pis := if pis.isEmpty then hosts.map (fun ip => ⟨ip, [], 0⟩) else pis
    scan_raspberry_pi_for_cameras net pis

/-- Python's `max(xs, key=...)` starting from `x`: replace the current best
only on a strictly greater key, so the first maximal element wins
(test_camera_server.py:307). -/
def pyMax1 (x : CameraServer) : List CameraServer → CameraServer
  | [] => x
  | y :: ys => pyMax1 (if y.pi_confidence > x.pi_confidence then y else x) ys

/-- `max(discovered_servers, key=lambda x: x['pi_confidence'])` as used in
`main` (test_camera_server.py:307); `none` on the empty list (Python would
raise, and `main` guards with `if discovered_servers:`). -/
def pyMax : List CameraServer → Option CameraServer
  | [] => none
  | x :: xs => some (pyMax1 x xs)

/-- Is a result list sorted by descending `pi_confidence`? -/
def sortedByConfDesc : List CameraServer → Bool
  | [] => true
  | [_] => true
  | x :: y :: rest =>
      decide (y.pi_confidence ≤ x.pi_confidence) && sortedByConfDesc (y :: rest)

/-- A device record as built by `scan_for_raspberry_pi`
(diagnose_connectivity.py:79-101): the four port-probe results, the
resolved hostname (`none` = lookup raised), and the numeric confidence. -/
structure DiagDevice where
  ip : String
  ssh : Bool
  http : Bool
  camera : Bool
  vnc : Bool
  hostname : Option String
  confidence : Nat
deriving DecidableEq, Repr

/-- Count of successful port probes recorded in a `DiagDevice`
(`sum(pi_indicators.values())`, diagnose_connectivity.py:91). -/
def diagPortCount (d : DiagDevice) : Nat :=
  (if d.ssh then 1 else 0) + (if d.http then 1 else 0) +
  (if d.camera then 1 else 0) + (if d.vnc then 1 else 0)

/-- The hostname bonus of diagnose_connectivity.py:98-99: `+= 2` when the
resolved name contains a known fragment, nothing otherwise. -/
def diagBonus (d : DiagDevice) : Nat :=
  match d.hostname with
  | some h => if piNames.any (fun t => strContains (lowerStr h) t) then 2 else 0
  | none => 0

/-- The number of positive indicators backing a `DiagDevice` under the
spec's counting: one per open port plus one for a matching hostname. -/
def diagFiredCount (d : DiagDevice) : Nat :=
  diagPortCount d +
  (match d.hostname with
   | some h => if piNames.any (fun t => strContains (lowerStr h) t) then 1 else 0
   | none => 0)

/-- The per-address body of `scan_for_raspberry_pi`
(diagnose_connectivity.py:75-104): probe ports 22/80/8080/5900; a device
is recorded **only if some port responded**; only then is reverse DNS
consulted, a matching hostname adding `2` to the confidence. -/
def diag_check (net : Net) (ip : String) : Option DiagDevice :=
  let ssh := test_port net ip 22
  let htp := test_port net ip 80
  let cam := test_port net ip 8080
  let vnc := test_port net ip 5900
  if ssh || htp || cam || vnc then
    let base := (if ssh then 1 else 0) + (if htp then 1 else 0) +
                (if cam then 1 else 0) + (if vnc then 1 else 0)
    match net.dns ip with
    | some hostname =>
        some ⟨ip, ssh, htp, cam, vnc, some hostname,
          if piNames.any (fun t => strContains (lowerStr hostname) t) then
            base + 2
          else base⟩
    | none => some ⟨ip, ssh, htp, cam, vnc, none, base⟩
  else none

/-- Ports probed by `test_camera_servers` (diagnose_connectivity.py:141). -/
def diag_ports : List Nat := [8080, 8081, 5000, 8000, 80]

/-- Endpoints probed by `test_camera_servers`
(diagnose_connectivity.py:132-139); `""` means the bare root URL. -/
def diag_endpoints : List String :=
  ["video_feed", "stream", "camera", "mjpeg", "my_mac_camera", ""]

/-- A camera-server record as built by `test_camera_servers`
(diagnose_connectivity.py:153-159): no status or content-type is kept. -/
structure DiagCam where
  ip : String
  port : Nat
  endpoint : String
  url : String
  confidence : Nat
deriving DecidableEq, Repr

/-- The URL built at diagnose_connectivity.py:146-148: no trailing slash
for the empty endpoint. -/
def diagUrlOf (ip : String) (port : Nat) (endpoint : String) : String :=
  "http://" ++ ip ++ ":" ++ toString port ++
  (if endpoint == "" then "" else "/" ++ endpoint)

/-- `test_camera_servers` (diagnose_connectivity.py:122-164): for each
device, each port whose corresponding service probe succeeded (`camera`
for 8080, `http` otherwise) is crossed with the endpoint list; a URL is
accepted iff `requests.get` succeeds with `status_code == 200` — the
content-type is never inspected. -/
def diag_test_camera_servers (net : Net) (devices : List DiagDevice) :
    List DiagCam :=
  devices.flatMap fun d =>
    diag_ports.flatMap fun port =>
      if (if port == 8080 then d.camera else d.http) then
        diag_endpoints.filterMap fun endpoint =>
          let url := diagUrlOf d.ip port endpoint
          match net.http url with
          | .ok (status, _) =>
              if status == 200 then
                some ⟨d.ip, port, endpoint, url, d.confidence⟩
              else none
          | .error _ => none
      else []

/-! Concrete network snapshots used to exercise the definitions. -/

/-- A host serving HTTP 200 with content-type `text/html` at
`http://10.0.0.4:8080/stream`; nothing else responds. -/
def c1Net : Net where
  sock := fun _ _ => .refused
  dns := fun _ => none
  http := fun url =>
    if url == "http://10.0.0.4:8080/stream" then .ok (200, some "text/html")
    else .error "connection refused"
  ping := fun _ => false
  localIP := none

/-- A device record for `10.0.0.4` whose camera-port probe succeeded. -/
def c1Dev : DiagDevice := ⟨"10.0.0.4", false, false, true, false, none, 1⟩

/-- A host serving a proper MJPEG stream at `http://10.0.0.9:8080/stream`. -/
def c1pNet : Net where
  sock := fun _ _ => .refused
  dns := fun _ => none
  http := fun url =>
    if url == "http://10.0.0.9:8080/stream" then .ok (200, some "video/mjpeg")
    else .error "connection refused"
  ping := fun _ => false
  localIP := none

/-- The classified device owning `10.0.0.9`. -/
def c1pDev : PiDevice := ⟨"10.0.0.9", ["SSH"], 1⟩

/-- The endpoint candidate expected from `c1pNet`. -/
def c1cand : CameraServer :=
  ⟨"10.0.0.9", 8080, "stream", "http://10.0.0.9:8080/stream", 200,
   "video/mjpeg", 1⟩

/-- A host with SSH open and a matching reverse-DNS name. -/
def c2Net : Net where
  sock := fun ip port =>
    if ip == "10.0.0.2" && port == 22 then .connected else .refused
  dns := fun ip => if ip == "10.0.0.2" then some "raspberrypi" else none
  http := fun _ => .error "connection refused"
  ping := fun _ => false
  localIP := none

/-- The device candidate `check_raspberry_pi` builds on `c2Net`. -/
def c2dev : PiDevice := ⟨"10.0.0.2", ["SSH", "Hostname: raspberrypi"], 2⟩

/-- A host with SSH open and a matching reverse-DNS name, for the
diagnose-variant classifier. -/
def c2dNet : Net where
  sock := fun ip port =>
    if ip == "10.0.0.3" && port == 22 then .connected else .refused
  dns := fun ip => if ip == "10.0.0.3" then some "raspberrypi" else none
  http := fun _ => .error "connection refused"
  ping := fun _ => false
  localIP := none

/-- The device record `diag_check` builds on `c2dNet`: one open port, a
matching hostname, and confidence `1 + 2 = 3`. -/
def c2dDev : DiagDevice :=
  ⟨"10.0.0.3", true, false, false, false, some "raspberrypi", 3⟩

/-- A host that answers on no port at all but whose reverse-DNS name is
`raspberrypi`. -/
def c3Net : Net where
  sock := fun _ _ => .refused
  dns := fun ip => if ip == "192.168.1.77" then some "raspberrypi" else none
  http := fun _ => .error "connection refused"
  ping := fun _ => false
  localIP := none

/-- First element of the tie-break test list (confidence 2). -/
def c4a : CameraServer :=
  ⟨"10.0.0.1", 8080, "stream", "http://10.0.0.1:8080/stream", 200,
   "video/mjpeg", 2⟩

/-- Second element of the tie-break test list (also confidence 2). -/
def c4b : CameraServer :=
  ⟨"10.0.0.2", 8080, "video", "http://10.0.0.2:8080/video", 200,
   "video/mjpeg", 2⟩

/-- Third element of the tie-break test list (confidence 1). -/
def c4c : CameraServer :=
  ⟨"10.0.0.3", 80, "image", "http://10.0.0.3:80/image", 200,
   "image/jpeg", 1⟩

/-- A result set with a confidence tie between its first two elements. -/
def c4list : List CameraServer := [c4a, c4b, c4c]

/-- One live host that looks nothing like a Pi (no open port, no DNS) but
serves an MJPEG stream at `http://192.168.1.9:8080/stream`. -/
def c5Net : Net where
  sock := fun _ _ => .refused
  dns := fun _ => none
  http := fun url =>
    if url == "http://192.168.1.9:8080/stream" then .ok (200, some "video/mjpeg")
    else .error "connection refused"
  ping := fun ip => ip == "192.168.1.9"
  localIP := none

/-- The fallback-mode endpoint candidate expected from `c5Net`. -/
def c5cand : CameraServer :=
  ⟨"192.168.1.9", 8080, "stream", "http://192.168.1.9:8080/stream", 200,
   "video/mjpeg", 0⟩

/-- Two hosts, one with SSH and one with HTTP open; `10.0.0.1` serves two
distinct media endpoints. -/
def c6Net : Net where
  sock := fun ip port =>
    if (ip == "10.0.0.1" && port == 22) || (ip == "10.0.0.2" && port == 80) then
      .connected
    else .refused
  dns := fun _ => none
  http := fun url =>
    if url == "http://10.0.0.1:8080/video" then .ok (200, some "video/mp4")
    else if url == "http://10.0.0.1:8080/stream" then .ok (200, some "video/mjpeg")
    else .error "connection refused"
  ping := fun ip => ip == "10.0.0.1" || ip == "10.0.0.2"
  localIP := none

/-- The duplicate-free address set for the deduplication test. -/
def c6hosts : List String := ["10.0.0.1", "10.0.0.2"]

/-- Two classified devices with distinct addresses. -/
def c6devs : List PiDevice :=
  [⟨"10.0.0.1", ["SSH"], 1⟩, ⟨"10.0.0.2", ["HTTP"], 1⟩]

/-- Two live hosts: `192.168.1.5` (SSH only, confidence 1) discovered
before `192.168.1.6` (SSH + HTTP, confidence 2); both serve a JPEG
camera at `http://…:8080/my_mac_camera`. -/
def c7Net : Net where
  sock := fun ip port =>
    if (ip == "192.168.1.5" && port == 22) ||
       (ip == "192.168.1.6" && (port == 22 || port == 80)) then
      .connected
    else .refused
  dns := fun _ => none
  http := fun url =>
    if url == "http://192.168.1.5:8080/my_mac_camera" ||
       url == "http://192.168.1.6:8080/my_mac_camera" then
      .ok (200, some "image/jpeg")
    else .error "connection refused"
  ping := fun ip => ip == "192.168.1.5" || ip == "192.168.1.6"
  localIP := none

/-- A network whose local-address detection failed (`localIP = none`) but
with a live, serving host inside the fallback ranges. -/
def c9Net : Net where
  sock := fun ip port =>
    if ip == "192.168.1.5" && port == 22 then .connected else .refused
  dns := fun _ => none
  http := fun url =>
    if url == "http://192.168.1.5:8080/video" then .ok (200, some "video/mjpeg")
    else .error "connection refused"
  ping := fun ip => ip == "192.168.1.5"
  localIP := none

/-- The endpoint candidate expected from `c9Net`. -/
def c9cand : CameraServer :=
  ⟨"192.168.1.5", 8080, "video", "http://192.168.1.5:8080/video", 200,
   "video/mjpeg", 1⟩

/-- A host answering `200 OK` with no `content-type` header at
`http://10.0.0.11:8080/image`. -/
def c10Net : Net where
  sock := fun _ _ => .refused
  dns := fun _ => none
  http := fun url =>
    if url == "http://10.0.0.11:8080/image" then .ok (200, none)
    else .error "connection refused"
  ping := fun _ => false
  localIP := none

/-- The classified device owning `10.0.0.11`. -/
def c10dev : PiDevice := ⟨"10.0.0.11", ["SSH"], 1⟩

/-- The fifth classifier check in isolation: reverse DNS succeeded and the
lowercased name contains a known device-name fragment. -/
def hostMatch (net : Net) (ip : String) : Bool :=
  match net.dns ip with
  | some h => piNames.any (fun n => strContains (lowerStr h) n)
  | none => false

theorem check_raspberry_pi_some {net : Net} {ip : String} {d : PiDevice}
    (h : check_raspberry_pi net ip = some d) :
    d.ip = ip ∧ d.indicators = piIndicators net ip ∧
    d.confidence = d.indicators.length ∧ piIndicators net ip ≠ [] := by
  simp only [check_raspberry_pi] at h
  split at h
  · simp at h
  · next hne =>
    injection h with h
    subst h
    refine ⟨rfl, rfl, rfl, ?_⟩
    simpa [List.isEmpty_iff] using hne

theorem check_raspberry_pi_isSome (net : Net) (ip : String) :
    (check_raspberry_pi net ip).isSome = !(piIndicators net ip).isEmpty := by
  simp only [check_raspberry_pi]
  split <;> simp_all

theorem piIndicators_isEmpty (net : Net) (ip : String) :
    (piIndicators net ip).isEmpty =
    !(test_ip_connectivity net ip 22 || test_ip_connectivity net ip 80 ||
      test_ip_connectivity net ip 8080 || test_ip_connectivity net ip 5900 ||
      hostMatch net ip) := by
  unfold piIndicators hostnameIndicator hostMatch
  rcases hd : net.dns ip with _ | hname
  · cases h22 : test_ip_connectivity net ip 22 <;>
    cases h80 : test_ip_connectivity net ip 80 <;>
    cases h8080 : test_ip_connectivity net ip 8080 <;>
    cases h5900 : test_ip_connectivity net ip 5900 <;>
    simp
  · cases hm : piNames.any (fun n => strContains (lowerStr hname) n) <;>
    cases h22 : test_ip_connectivity net ip 22 <;>
    cases h80 : test_ip_connectivity net ip 80 <;>
    cases h8080 : test_ip_connectivity net ip 8080 <;>
    cases h5900 : test_ip_connectivity net ip 5900 <;>
    simp [hm]

theorem check_camera_server_some {net : Net} {d : PiDevice} {port : Nat}
    {endpoint : String} {c : CameraServer}
    (h : check_camera_server net d port endpoint = some c) :
    c.ip = d.ip ∧ c.port = port ∧ c.endpoint = endpoint ∧
    c.url = urlOf d.ip port endpoint ∧ c.status = 200 ∧
    c.pi_confidence = d.confidence ∧
    mediaTypes.any (fun m => strContains (lowerStr c.content_type) m) = true := by
  simp only [check_camera_server] at h
  rcases hh : test_http_connectivity net (urlOf d.ip port endpoint) with ⟨s, ct⟩
  rw [hh] at h
  cases s with
  | none => simp at h
  | some status =>
    dsimp only at h
    split at h
    · next hcond =>
      injection h with h
      subst h
      have hsp := (Bool.and_eq_true _ _).mp hcond
      have h200 : status = 200 := by simpa using hsp.1
      subst h200
      exact ⟨rfl, rfl, rfl, rfl, rfl, rfl, hsp.2⟩
    · simp at h

theorem mem_scan_confidence {net : Net} {devs : List PiDevice} {c : CameraServer}
    (h : c ∈ scan_raspberry_pi_for_cameras net devs) :
    ∃ d ∈ devs, c.pi_confidence = d.confidence := by
  simp only [scan_raspberry_pi_for_cameras, deviceEndpoints, List.mem_flatMap,
    List.mem_filterMap] at h
  obtain ⟨d, hd, p, hp, e, he, hc⟩ := h
  exact ⟨d, hd, (check_camera_server_some hc).2.2.2.2.2.1⟩

theorem scan_devices_map_ip (net : Net) (hosts : List String) :
    (scan_for_raspberry_pi_devices net hosts).map (fun d => d.ip) =
      hosts.filter (fun ip => (check_raspberry_pi net ip).isSome) := by
  induction hosts with
  | nil => rfl
  | cons a rest ih =>
    simp only [scan_for_raspberry_pi_devices, List.filterMap_cons, List.filter_cons] at *
    cases h : check_raspberry_pi net a with
    | none => simpa [h] using ih
    | some d =>
      have hip := (check_raspberry_pi_some h).1
      simp [h, hip, ih]

theorem filterMap_camera_map_key (net : Net) (d : PiDevice) (p : Nat)
    (l : List String) :
    (l.filterMap (check_camera_server net d p)).map
        (fun c => (c.ip, c.port, c.endpoint)) =
      (l.filter (fun e => (check_camera_server net d p e).isSome)).map
        (fun e => (d.ip, p, e)) := by
  induction l with
  | nil => rfl
  | cons a rest ih =>
    simp only [List.filterMap_cons, List.filter_cons]
    cases h : check_camera_server net d p a with
    | none => simpa [h] using ih
    | some c =>
      obtain ⟨h1, h2, h3, _⟩ := check_camera_server_some h
      simp [h, h1, h2, h3, ih]

theorem deviceEndpoints_map_key (net : Net) (d : PiDevice) :
    (deviceEndpoints net d).map (fun c => (c.ip, c.port, c.endpoint)) =
      camera_ports.flatMap (fun p =>
        (camera_endpoints.filter
            (fun e => (check_camera_server net d p e).isSome)).map
          (fun e => (d.ip, p, e))) := by
  simp only [deviceEndpoints, List.map_flatMap, filterMap_camera_map_key]

theorem deviceEndpoints_key_nodup (net : Net) (d : PiDevice) :
    ((deviceEndpoints net d).map (fun c => (c.ip, c.port, c.endpoint))).Nodup := by
  rw [deviceEndpoints_map_key]
  refine List.nodup_flatMap.mpr ⟨?_, ?_⟩
  · intro p _
    refine List.Nodup.map ?_ (List.Nodup.filter _ (by decide))
    intro a b hab
    simpa using hab
  · have hports : camera_ports.Nodup := by decide
    refine hports.imp ?_
    intro p q hpq x hxp hxq
    simp only [List.mem_map, List.mem_filter] at hxp hxq
    obtain ⟨e1, _, he1⟩ := hxp
    obtain ⟨e2, _, he2⟩ := hxq
    have hx : (d.ip, p, e1) = (d.ip, q, e2) := he1.trans he2.symm
    exact hpq (congrArg (fun t => t.2.1) hx)

theorem mem_deviceEndpoints_key {net : Net} {d : PiDevice} {x : String × Nat × String}
    (h : x ∈ (deviceEndpoints net d).map (fun c => (c.ip, c.port, c.endpoint))) :
    x.1 = d.ip := by
  rw [deviceEndpoints_map_key] at h
  simp only [List.mem_flatMap, List.mem_map, List.mem_filter] at h
  obtain ⟨p, _, e, _, he⟩ := h
  rw [← he]

theorem pyMax1_spec (x : CameraServer) (ys : List CameraServer) :
    ∃ pre post, x :: ys = pre ++ pyMax1 x ys :: post ∧
      (∀ z ∈ pre, z.pi_confidence < (pyMax1 x ys).pi_confidence) ∧
      (∀ z ∈ post, z.pi_confidence ≤ (pyMax1 x ys).pi_confidence) := by
  induction ys generalizing x with
  | nil => exact ⟨[], [], rfl, by simp, by simp⟩
  | cons y ys ih =>
    by_cases hyx : y.pi_confidence > x.pi_confidence
    · have hstep : pyMax1 x (y :: ys) = pyMax1 y ys := by
        simp [pyMax1, hyx]
      obtain ⟨pre, post, heq, hpre, hpost⟩ := ih y
      have hyb : y.pi_confidence ≤ (pyMax1 y ys).pi_confidence := by
        cases pre with
        | nil =>
          have hpair : y = pyMax1 y ys ∧ ys = post := by simpa using heq
          rw [← hpair.1]
        | cons p0 pre' =>
          have hpair : y = p0 ∧ ys = pre' ++ pyMax1 y ys :: post := by
            simpa using heq
          have hlt := hpre p0 (by simp)
          rw [← hpair.1] at hlt
          exact le_of_lt hlt
      refine ⟨x :: pre, post, ?_, ?_, ?_⟩
      · rw [hstep, List.cons_append, ← heq]
      · intro z hz
        rw [hstep]
        rcases List.mem_cons.mp hz with hz | hz
        · subst hz
          exact lt_of_lt_of_le hyx hyb
        · exact hpre z hz
      · intro z hz
        rw [hstep]
        exact hpost z hz
    · have hstep : pyMax1 x (y :: ys) = pyMax1 x ys := by
        simp [pyMax1, hyx]
      obtain ⟨pre, post, heq, hpre, hpost⟩ := ih x
      cases pre with
      | nil =>
        have hpair : x = pyMax1 x ys ∧ ys = post := by simpa using heq
        refine ⟨[], y :: ys, ?_, by simp, ?_⟩
        · rw [List.nil_append, hstep, ← hpair.1]
        · intro z hz
          rw [hstep, ← hpair.1]
          rcases List.mem_cons.mp hz with hz | hz
          · subst hz
            exact le_of_not_lt hyx
          · have hle := hpost z (hpair.2 ▸ hz)
            rw [← hpair.1] at hle
            exact hle
      | cons p0 pre' =>
        have hpair : x = p0 ∧ ys = pre' ++ pyMax1 x ys :: post := by
          simpa using heq
        have hxlt : x.pi_confidence < (pyMax1 x ys).pi_confidence := by
          have hlt := hpre p0 (by simp)
          rw [← hpair.1] at hlt
          exact hlt
        refine ⟨x :: y :: pre', post, ?_, ?_, ?_⟩
        · rw [hstep, List.cons_append, List.cons_append, ← hpair.2]
        · intro z hz
          rw [hstep]
          rcases List.mem_cons.mp hz with hz | hz
          · subst hz
            exact hxlt
          rcases List.mem_cons.mp hz with hz | hz
          · subst hz
            exact lt_of_le_of_lt (le_of_not_lt hyx) hxlt
          · exact hpre z (by rw [← hpair.1]; exact List.mem_cons.mpr (Or.inr hz))
        · intro z hz
          rw [hstep]
          exact hpost z hz

/-- Claim C1 (amended): in the primary endpoint resolver
(`check_camera_server`), a probed URL yields an Endpoint Candidate iff the
HTTP probe succeeded with status exactly 200 and the content-type
(defaulted to "unknown", lowercased) contains an accepted media token; and
every candidate it produces records `status = 200` and a matching
content-type.  (The secondary resolver in diagnose_connectivity.py accepts
any 200 response without inspecting the content-type; see the
counterexample.) -/
theorem claim_C1_amended :
    (∀ (net : Net) (d : PiDevice) (port : Nat) (endpoint : String),
        (check_camera_server net d port endpoint).isSome = true ↔
        ∃ s ct, net.http (urlOf d.ip port endpoint) = .ok (s, ct) ∧ s = 200 ∧
          mediaTypes.any
            (fun m => strContains (lowerStr (ct.getD "unknown")) m) = true) ∧
    (∀ (net : Net) (d : PiDevice) (port : Nat) (endpoint : String)
        (c : CameraServer),
        check_camera_server net d port endpoint = some c →
        c.status = 200 ∧
        mediaTypes.any (fun m => strContains (lowerStr c.content_type) m) = true) := by
  constructor
  · intro net d port endpoint
    simp only [check_camera_server, test_http_connectivity]
    cases hh : net.http (urlOf d.ip port endpoint) with
    | error e => simp [hh]
    | ok pair =>
      rcases pair with ⟨s, ct⟩
      simp only [hh]
      constructor
      · intro hsome
        split at hsome
        · next hcond =>
          have hsp := (Bool.and_eq_true _ _).mp hcond
          exact ⟨s, ct, rfl, by simpa using hsp.1, hsp.2⟩
        · simp at hsome
      · rintro ⟨s', ct', hok, hs200, hany⟩
        obtain ⟨hs, hct⟩ : s = s' ∧ ct = ct' := by
          have := hok
          simp at this
          exact ⟨this.1, this.2⟩
        subst hs200
        rw [if_pos]
        · rfl
        · rw [Bool.and_eq_true]
          exact ⟨by simp [hs], by rw [hs, hct] at *; exact hany⟩
  · intro net d port endpoint c h
    obtain ⟨_, _, _, _, h5, _, h7⟩ := check_camera_server_some h
    exact ⟨h5, h7⟩

/-- Claim C1 counterexample: the endpoint resolver of
diagnose_connectivity.py (`test_camera_servers`) yields an Endpoint
Candidate for a URL whose response has status 200 and content-type
`text/html`, which contains none of the accepted media tokens — refuting
the claim that every probe yields a candidate only when the content-type
matches. -/
theorem claim_C1_counterexample :
    diag_test_camera_servers c1Net [c1Dev] =
      [⟨"10.0.0.4", 8080, "stream", "http://10.0.0.4:8080/stream", 1⟩] ∧
    c1Net.http "http://10.0.0.4:8080/stream" = .ok (200, some "text/html") ∧
    mediaTypes.any (fun m => strContains (lowerStr "text/html") m) = false := by
  refine ⟨by decide, by rfl, by decide⟩

/-- Witness for C1: a concrete accepted probe has status 200 and a
matching content-type. -/
theorem claim_C1_witness :
    c1cand.status = 200 ∧
    mediaTypes.any (fun m => strContains (lowerStr c1cand.content_type) m) = true :=
  claim_C1_amended.2 c1pNet c1pDev 8080 "stream" c1cand (by decide)

/-- Claim C2 (amended): in the primary classifier (`check_raspberry_pi`)
every Device Candidate's confidence equals the length of its indicator
list, the hostname indicator counting exactly once.  In the
diagnose_connectivity.py classifier the confidence is instead the count of
open ports plus a numeric bonus of 2 for a hostname match. -/
theorem claim_C2_amended :
    (∀ (net : Net) (ip : String) (d : PiDevice),
        check_raspberry_pi net ip = some d →
        d.confidence = d.indicators.length) ∧
    (∀ (net : Net) (ip : String) (d : DiagDevice),
        diag_check net ip = some d →
        d.confidence = diagPortCount d + diagBonus d) := by
  constructor
  · intro net ip d h
    exact (check_raspberry_pi_some h).2.2.1
  · intro net ip d h
    simp only [diag_check] at h
    split at h
    · cases hd : net.dns ip with
      | none =>
        rw [hd] at h
        injection h with h
        subst h
        simp [diagPortCount, diagBonus]
      | some hostname =>
        rw [hd] at h
        injection h with h
        subst h
        simp only [diagPortCount, diagBonus]
        split <;> simp
    · simp at h

/-- Claim C2 counterexample: on a host with only SSH open and reverse-DNS
name `raspberrypi`, the diagnose_connectivity.py classifier records
confidence 3 while only two indicators (SSH and the hostname) fired — the
hostname match contributed a bonus of 2, not 1, so confidence differs from
the indicator count. -/
theorem claim_C2_counterexample :
    diag_check c2dNet "10.0.0.3" = some c2dDev ∧
    c2dDev.confidence = 3 ∧ diagFiredCount c2dDev = 2 ∧
    c2dDev.confidence ≠ diagFiredCount c2dDev := by
  refine ⟨by decide, by decide, by decide, by decide⟩

/-- Witness for C2: a concrete primary-classifier candidate has
confidence equal to its indicator count. -/
theorem claim_C2_witness : c2dev.confidence = c2dev.indicators.length :=
  claim_C2_amended.1 c2Net "10.0.0.2" c2dev (by decide)

/-- Claim C3 (amended): the primary classifier emits a Device Candidate
iff at least one of its five checks fired (TCP 22/80/8080/5900 or a
matching reverse-DNS name) — in particular a hostname-only address still
yields a candidate.  The diagnose_connectivity.py classifier instead emits
a candidate iff at least one of the four TCP probes succeeded; a hostname
match alone does not suffice there. -/
theorem claim_C3_amended :
    (∀ (net : Net) (ip : String),
        (check_raspberry_pi net ip).isSome =
        (test_ip_connectivity net ip 22 || test_ip_connectivity net ip 80 ||
         test_ip_connectivity net ip 8080 || test_ip_connectivity net ip 5900 ||
         hostMatch net ip)) ∧
    (∀ (net : Net) (ip : String),
        (diag_check net ip).isSome =
        (test_port net ip 22 || test_port net ip 80 ||
         test_port net ip 8080 || test_port net ip 5900)) := by
  constructor
  · intro net ip
    rw [check_raspberry_pi_isSome, piIndicators_isEmpty, Bool.not_not]
  · intro net ip
    simp only [diag_check]
    split
    · next hcond =>
      rw [hcond]
      cases net.dns ip <;> simp
    · next hcond =>
      simp only [Option.isSome_none]
      exact (Bool.not_eq_true _).mp hcond |>.symm

/-- Claim C3 counterexample: an address silent on all four ports but with
reverse-DNS name `raspberrypi` yields a Device Candidate in the primary
classifier yet none in diagnose_connectivity.py, refuting the claim that
a hostname-only address always yields a candidate. -/
theorem claim_C3_counterexample :
    c3Net.dns "192.168.1.77" = some "raspberrypi" ∧
    hostMatch c3Net "192.168.1.77" = true ∧
    check_raspberry_pi c3Net "192.168.1.77" =
      some ⟨"192.168.1.77", ["Hostname: raspberrypi"], 1⟩ ∧
    diag_check c3Net "192.168.1.77" = none := by
  refine ⟨by decide, by decide, by decide, by decide⟩

/-- Claim C4: on a non-empty result set, the best-candidate selection
(Python `max` by `pi_confidence`, embedded as the left fold `pyMax`)
returns an element of the list that is maximal in `pi_confidence` and is
the first such element in discovery order: every element before it is
strictly smaller, every element after it no larger. -/
theorem claim_C4 (l : List CameraServer) (h : l ≠ []) :
    ∃ b pre post, pyMax l = some b ∧ l = pre ++ b :: post ∧
      (∀ z ∈ pre, z.pi_confidence < b.pi_confidence) ∧
      (∀ z ∈ post, z.pi_confidence ≤ b.pi_confidence) := by
  cases l with
  | nil => exact absurd rfl h
  | cons x xs =>
    obtain ⟨pre, post, heq, hpre, hpost⟩ := pyMax1_spec x xs
    exact ⟨pyMax1 x xs, pre, post, rfl, heq, hpre, hpost⟩

/-- Witness for C4: on a list with a confidence tie between its first two
elements, the selection picks an element — and concretely the first one. -/
theorem claim_C4_witness :
    (c4list ≠ [] ∧
      ∃ b pre post, pyMax c4list = some b ∧ c4list = pre ++ b :: post ∧
        (∀ z ∈ pre, z.pi_confidence < b.pi_confidence) ∧
        (∀ z ∈ post, z.pi_confidence ≤ b.pi_confidence)) ∧
    pyMax c4list = some c4a :=
  ⟨⟨by decide, claim_C4 c4list (by decide)⟩, by decide⟩

/-- Claim C5: when the classifier finds no Device Candidate but the sweep
found responders, the resolver runs over every responder wrapped as a
candidate with empty indicators and confidence 0, and every Endpoint
Candidate found in this fallback mode carries `pi_confidence = 0`. -/
theorem claim_C5 (net : Net) (h1 : allHosts net ≠ [])
    (h2 : scan_for_raspberry_pi_devices net (allHosts net) = []) :
    auto_discover_camera_servers net =
      scan_raspberry_pi_for_cameras net
        ((allHosts net).map (fun ip => ⟨ip, [], 0⟩)) ∧
    ∀ c, c ∈ auto_discover_camera_servers net → c.pi_confidence = 0 := by
  have hne : (allHosts net).isEmpty = false := by
    cases hl : (allHosts net).isEmpty
    · rfl
    · exact absurd (List.isEmpty_iff.mp hl) h1
  have heq : auto_discover_camera_servers net =
      scan_raspberry_pi_for_cameras net
        ((allHosts net).map (fun ip => ⟨ip, [], 0⟩)) := by
    simp [auto_discover_camera_servers, hne, h2]
  refine ⟨heq, ?_⟩
  intro c hc
  rw [heq] at hc
  obtain ⟨d, hd, hconf⟩ := mem_scan_confidence hc
  obtain ⟨ip, _, hd'⟩ := List.mem_map.mp hd
  rw [hconf, ← hd']

/-- Witness for C5: the concrete fallback candidate found on `c5Net`
carries confidence 0. -/
theorem claim_C5_witness : c5cand.pi_confidence = 0 :=
  (claim_C5 c5Net (by decide) (by decide)).2 c5cand (by decide)

/-- Claim C6: over a duplicate-free address set the classifier yields
device candidates with pairwise-distinct addresses — exactly one record
per address whose classification fired — and over devices with
pairwise-distinct addresses the resolver yields endpoint candidates with
pairwise-distinct `(address, port, path)` triples. -/
theorem claim_C6 (net : Net) (hosts : List String) (devs : List PiDevice)
    (h1 : hosts.Nodup) (h2 : (devs.map (fun d => d.ip)).Nodup) :
    ((scan_for_raspberry_pi_devices net hosts).map (fun d => d.ip)).Nodup ∧
    (scan_for_raspberry_pi_devices net hosts).map (fun d => d.ip) =
      hosts.filter (fun ip => (check_raspberry_pi net ip).isSome) ∧
    ((scan_raspberry_pi_for_cameras net devs).map
        (fun c => (c.ip, c.port, c.endpoint))).Nodup := by
  refine ⟨?_, scan_devices_map_ip net hosts, ?_⟩
  · rw [scan_devices_map_ip]
    exact h1.filter _
  · rw [scan_raspberry_pi_for_cameras, List.map_flatMap]
    refine List.nodup_flatMap.mpr ⟨?_, ?_⟩
    · intro d _
      exact deviceEndpoints_key_nodup net d
    · have hpair : devs.Pairwise (fun a b => a.ip ≠ b.ip) :=
        List.pairwise_map.mp h2
      refine hpair.imp ?_
      intro a b hne x hxa hxb
      exact hne ((mem_deviceEndpoints_key hxa).symm.trans
        (mem_deviceEndpoints_key hxb))

/-- Witness for C6: concrete duplicate-free inputs produce duplicate-free
device addresses and endpoint triples. -/
theorem claim_C6_witness :
    ((scan_for_raspberry_pi_devices c6Net c6hosts).map (fun d => d.ip)).Nodup ∧
    (scan_for_raspberry_pi_devices c6Net c6hosts).map (fun d => d.ip) =
      c6hosts.filter (fun ip => (check_raspberry_pi c6Net ip).isSome) ∧
    ((scan_raspberry_pi_for_cameras c6Net c6devs).map
        (fun c => (c.ip, c.port, c.endpoint))).Nodup :=
  claim_C6 c6Net c6hosts c6devs (by decide) (by decide)

/-- Claim C7 (amended): the Discovery Result Set is ordered by device
discovery order — the endpoints of an earlier-classified device all
precede those of a later one, independently of their confidences — and is
not in general sorted by descending `device_confidence` (see the
counterexample). -/
theorem claim_C7_amended (net : Net) (pre : List PiDevice) (d1 : PiDevice)
    (mid : List PiDevice) (d2 : PiDevice) (post : List PiDevice) :
    scan_raspberry_pi_for_cameras net (pre ++ d1 :: mid ++ d2 :: post) =
      scan_raspberry_pi_for_cameras net pre ++ deviceEndpoints net d1 ++
      scan_raspberry_pi_for_cameras net mid ++ deviceEndpoints net d2 ++
      scan_raspberry_pi_for_cameras net post := by
  simp [scan_raspberry_pi_for_cameras, List.flatMap_append, List.flatMap_cons,
    List.append_assoc]

/-- Claim C7 counterexample: a full orchestrator run on `c7Net` returns
its two endpoint candidates with confidences `[1, 2]` — discovery order,
not descending confidence order. -/
theorem claim_C7_counterexample :
    (auto_discover_camera_servers c7Net).map (fun c => c.pi_confidence) = [1, 2] ∧
    sortedByConfDesc (auto_discover_camera_servers c7Net) = false := by
  refine ⟨by decide, by decide⟩

/-- Claim C8: the TCP probe primitives of both scripts are total Boolean
tests: they return `true` exactly when the connect attempt completes
(`SockOutcome.connected`) and `false` for every failing outcome — refused,
timed out, unreachable, DNS failure, socket error — the raised-exception
outcomes included, so no error ever propagates to the caller. -/
theorem claim_C8 (net : Net) (ip : String) (port : Nat) :
    test_ip_connectivity net ip port =
      decide (net.sock ip port = SockOutcome.connected) ∧
    test_port net ip port =
      decide (net.sock ip port = SockOutcome.connected) := by
  cases h : net.sock ip port <;>
    simp [test_ip_connectivity, test_port, connect_ex, h]

/-- Claim C9 (amended): configuration problems never stop a discovery
run.  A failed local-network detection does not raise: it falls back to
four fixed common ranges and probing proceeds; an empty host range
(`end < start`) issues no probe and yields an empty responder set, the
run completing normally. -/
theorem claim_C9_amended :
    get_local_network_ranges none =
      ["192.168.1", "192.168.0", "10.0.0", "172.16.0"] ∧
    ∀ (net : Net) (base : String) (s e : Nat), e < s →
      ping_sweep net base s e = [] := by
  refine ⟨rfl, ?_⟩
  intro net base s e h
  unfold ping_sweep
  have hz : e + 1 - s = 0 := by omega
  rw [hz]
  rfl

/-- Witness for C9: a concrete empty range sweeps nothing. -/
theorem claim_C9_witness :
    1 < 2 ∧ ping_sweep c9Net "192.168.1" 2 1 = [] :=
  ⟨by decide, claim_C9_amended.2 c9Net "192.168.1" 2 1 (by decide)⟩

/-- Claim C9 counterexample: on `c9Net` the local-network detection has
failed (`localIP = none`) — the claimed configuration-error case — yet the
run does not fail fast: it falls back to the four common ranges, probes
them, and completes with a non-empty result set. -/
theorem claim_C9_counterexample :
    c9Net.localIP = none ∧
    get_local_network_ranges c9Net.localIP =
      ["192.168.1", "192.168.0", "10.0.0", "172.16.0"] ∧
    auto_discover_camera_servers c9Net = [c9cand] := by
  refine ⟨by decide, by decide, by decide⟩

/-- Claim C10: a 200 response with no content-type header is reported by
the probe primitive as `(some 200, "unknown")`, and `"unknown"` matches no
accepted media token, so the resolver discards the URL. -/
theorem claim_C10 (net : Net) (d : PiDevice) (port : Nat) (endpoint : String)
    (h : net.http (urlOf d.ip port endpoint) = .ok (200, none)) :
    test_http_connectivity net (urlOf d.ip port endpoint) = (some 200, "unknown") ∧
    check_camera_server net d port endpoint = none ∧
    mediaTypes.any (fun m => strContains (lowerStr "unknown") m) = false := by
  have ht : test_http_connectivity net (urlOf d.ip port endpoint) =
      (some 200, "unknown") := by
    simp [test_http_connectivity, h]
  refine ⟨ht, ?_, by decide⟩
  have hc : (200 == 200 &&
      mediaTypes.any (fun m => strContains (lowerStr "unknown") m)) = false := by
    decide
  simp only [check_camera_server]
  rw [ht]
  dsimp only
  rw [hc]
  simp

/-- Witness for C10: the concrete header-less 200 response on `c10Net` is
reported with content-type `"unknown"` and yields no candidate. -/
theorem claim_C10_witness :
    test_http_connectivity c10Net (urlOf "10.0.0.11" 8080 "image") =
      (some 200, "unknown") ∧
    check_camera_server c10Net c10dev 8080 "image" = none ∧
    mediaTypes.any (fun m => strContains (lowerStr "unknown") m) = false :=
  claim_C10 c10Net c10dev 8080 "image" (by rfl)

/-- Witness for C3: the two classifier emission rules evaluated on the
hostname-only host `192.168.1.77`. -/
theorem claim_C3_witness :
    (check_raspberry_pi c3Net "192.168.1.77").isSome =
      (test_ip_connectivity c3Net "192.168.1.77" 22 ||
       test_ip_connectivity c3Net "192.168.1.77" 80 ||
       test_ip_connectivity c3Net "192.168.1.77" 8080 ||
       test_ip_connectivity c3Net "192.168.1.77" 5900 ||
       hostMatch c3Net "192.168.1.77") ∧
    (diag_check c3Net "192.168.1.77").isSome =
      (test_port c3Net "192.168.1.77" 22 || test_port c3Net "192.168.1.77" 80 ||
       test_port c3Net "192.168.1.77" 8080 ||
       test_port c3Net "192.168.1.77" 5900) :=
  ⟨claim_C3_amended.1 c3Net "192.168.1.77", claim_C3_amended.2 c3Net "192.168.1.77"⟩

/-- Witness for C7: the per-device grouping instantiated on two concrete
devices. -/
theorem claim_C7_witness :
    scan_raspberry_pi_for_cameras c6Net
        ([] ++ (⟨"10.0.0.1", ["SSH"], 1⟩ : PiDevice) ::
          [] ++ (⟨"10.0.0.2", ["HTTP"], 1⟩ : PiDevice) :: []) =
      scan_raspberry_pi_for_cameras c6Net [] ++
      deviceEndpoints c6Net ⟨"10.0.0.1", ["SSH"], 1⟩ ++
      scan_raspberry_pi_for_cameras c6Net [] ++
      deviceEndpoints c6Net ⟨"10.0.0.2", ["HTTP"], 1⟩ ++
      scan_raspberry_pi_for_cameras c6Net [] :=
  claim_C7_amended c6Net [] ⟨"10.0.0.1", ["SSH"], 1⟩ [] ⟨"10.0.0.2", ["HTTP"], 1⟩ []

/-- Witness for C8: both probes evaluated on a concrete socket outcome. -/
theorem claim_C8_witness :
    test_ip_connectivity c2Net "10.0.0.2" 22 =
      decide (c2Net.sock "10.0.0.2" 22 = SockOutcome.connected) ∧
    test_port c2Net "10.0.0.2" 22 =
      decide (c2Net.sock "10.0.0.2" 22 = SockOutcome.connected) :=
  claim_C8 c2Net "10.0.0.2" 22
